import Mathlib

/-!
# Verification of the Crop-Recommendation request pipeline

A shallow embedding of `src/app.py` (Flask app): the numeric input sanitizer,
the required-field decorator, the `/predict`, `/download_report` and `/health`
handlers, and the PDF report layout.

Modelling conventions:
* Python `float` values are modelled as `ℚ`.  All rationals produced by the
  embedding are built with `mkRat` over integer arithmetic.  The decimal-string
  formatting `f"{x:.1f}"` is modelled by rounding the rational at the given
  number of decimals (Python rounds the underlying binary double; no claim in
  this development depends on the difference).
* `request.form` is an association list; lookup returns the first binding,
  as Werkzeug's MultiDict `__getitem__` does.
* The classifier and the label encoder are opaque loaded artifacts: an
  optional function `List ℚ → ℕ` (`model.predict` on one row) and an optional
  function `ℕ → String` (`label_encoder.inverse_transform` on one id).  The
  process-wide globals `model` / `label_encoder` of `app.py` are threaded
  into each handler as an explicit read-only `ModelState`.
* HTTP responses are modelled by the `Response` type: a JSON error with a
  status code, the rendered `result.html` page, the `/health` JSON body, or
  a file download; non-error responses carry status 200.
-/

deriving instance DecidableEq for Except

namespace CropRec

/-! ## Python string primitives -/

/-- The characters Python's `str.strip()` removes (ASCII whitespace). -/
def pyIsSpace (c : Char) : Bool :=
  c == ' ' || c == '\t' || c == '\n' || c == '\r' || c == '\x0b' || c == '\x0c'

/-- Python `str.strip()`. -/
def pyStrip (s : String) : String :=
  ⟨((s.data.dropWhile pyIsSpace).reverse.dropWhile pyIsSpace).reverse⟩

/-- Python slicing `s[:n]` (by code point). -/
def pyTake (s : String) (n : ℕ) : String := ⟨s.data.take n⟩

/-- Python `str.upper()` (ASCII letters). -/
def pyUpper (s : String) : String := ⟨s.data.map Char.toUpper⟩

/-- The character class kept by `re.sub(r'[^0-9.-]', '', value)` at
`app.py:52`: digits, the decimal point and the minus sign. -/
def keepNumericChar (c : Char) : Bool :=
  c.isDigit || c == '.' || c == '-'

/-- `re.sub(r'[^0-9.-]', '', str(value))` — delete every other character. -/
def cleanNumeric (s : String) : String := ⟨s.data.filter keepNumericChar⟩

/-- Value of a (decimal) digit string, most significant first. -/
def digitsVal (cs : List Char) : ℕ :=
  cs.foldl (fun n c => 10 * n + (c.toNat - 48)) 0

/-- Magnitude part of Python's `float()` string grammar, restricted to the
alphabet `{0-9, ., -}` that survives `cleanNumeric` (no exponent, no `inf`/
`nan`, since letters have been deleted).  Returns the numerator digits' value
together with the power-of-ten denominator, or `none` when `float()` would
raise `ValueError`: the accepted forms are `digits`, `digits.digits`,
`digits.` and `.digits` (at least one digit overall, at most one dot, no
stray minus sign). -/
def parseMagnitude (cs : List Char) : Option (ℕ × ℕ) :=
  match cs.dropWhile (fun c => !(c == '.')) with
  | [] =>
      if !cs.isEmpty && cs.all Char.isDigit then some (digitsVal cs, 1) else none
  | _ :: fp =>
      let ip := cs.takeWhile (fun c => !(c == '.'))
      if fp.contains '.' then none
      else if (!ip.isEmpty || !fp.isEmpty) && ip.all Char.isDigit && fp.all Char.isDigit then
        some (digitsVal (ip ++ fp), 10 ^ fp.length)
      else none

/-- Python `float(s)` on the residual character list: an optional leading
sign followed by a magnitude. -/
def pyFloatChars (cs : List Char) : Option ℚ :=
  match cs with
  | [] => none
  | c :: rest =>
      if c == '-' then (parseMagnitude rest).map (fun p => mkRat (-(p.1 : ℤ)) p.2)
      else if c == '+' then (parseMagnitude rest).map (fun p => mkRat (p.1 : ℤ) p.2)
      else (parseMagnitude (c :: rest)).map (fun p => mkRat (p.1 : ℤ) p.2)

/-- Python `float(s)` as used at `app.py:53` (on a cleaned string). -/
def pyFloat? (s : String) : Option ℚ := pyFloatChars s.data

/-! ## Sanitizers (`app.py` 37–68) -/

/-- `min_val is not None and num_value < min_val` (`app.py:55`). -/
def belowMin : Option ℚ → ℚ → Bool
  | none, _ => false
  | some m, v => decide (v < m)

/-- `max_val is not None and num_value > max_val` (`app.py:57`). -/
def aboveMax : Option ℚ → ℚ → Bool
  | none, _ => false
  | some m, v => decide (m < v)

/-- Rendering of a numeric bound inside an error message (all call sites in
`app.py` pass integer bounds, which Python prints without a decimal part). -/
def ratStr (q : ℚ) : String :=
  if q.den = 1 then toString q.num else toString q.num ++ "/" ++ toString q.den

/-- Rendering of an optional bound in an f-string. -/
def boundStr : Option ℚ → String
  | none => "None"
  | some m => ratStr m

/-- `sanitize_numeric_input` (`app.py:48-62`): strip every character other
than digits, `.` and `-`; parse the remainder as a float; check the optional
bounds.  Both the parse failure and the bound violations raise `ValueError`
inside the `try`, so both are re-wrapped into `"Invalid {field_name}: ..."`.
Pure function: it is modelled as a total Lean function into `Except`. -/
def sanitize_numeric_input (value : String) (min_val max_val : Option ℚ)
    (field_name : String) : Except String ℚ :=
  match pyFloat? (cleanNumeric value) with
  | none =>
      .error ("Invalid " ++ (field_name ++ (": could not convert string to float: '"
        ++ (cleanNumeric value ++ "'"))))
  | some num_value =>
      if belowMin min_val num_value then
        .error ("Invalid " ++ (field_name ++ (": " ++ (field_name
          ++ (" must be at least " ++ boundStr min_val)))))
      else if aboveMax max_val num_value then
        .error ("Invalid " ++ (field_name ++ (": " ++ (field_name
          ++ (" must be at most " ++ boundStr max_val)))))
      else .ok num_value

/-- `sanitize_input` (`app.py:64-68`): trim and truncate display text. -/
def sanitize_input (text : String) (max_length : ℕ) : String :=
  pyTake (pyStrip text) max_length

/-! ### Development sanity checks (concrete evaluations) -/

example : pyFloat? "20.8" = some (mkRat 208 10) := by decide
example : pyFloat? "" = none := by decide
example : pyFloat? "-" = none := by decide
example : pyFloat? "." = none := by decide
example : pyFloat? "1.2.3" = none := by decide
example : pyFloat? "-.5" = some (mkRat (-5) 10) := by decide
example : pyFloat? "1-2" = none := by decide
example : cleanNumeric "9a0" = "90" := by decide
example : cleanNumeric "1e5" = "15" := by decide
example : sanitize_numeric_input "20.8" (some (-50)) (some 100) "Temperature"
    = .ok (mkRat 208 10) := by decide
example : sanitize_numeric_input "-60" (some (-50)) (some 100) "Temperature"
    = .error "Invalid Temperature: Temperature must be at least -50" := by decide
example : sanitize_numeric_input "abc" (some 0) (some 200) "pH"
    = .error "Invalid pH: could not convert string to float: ''" := by decide
example : sanitize_input "  rice  " 100 = "rice" := by decide

/-! ## Request forms and the required-field decorator -/

/-- A form-encoded request body; `request.form` lookup returns the first
binding of a key. -/
abbrev Form := List (String × String)

/-- `request.form[k]` when present. -/
def formGet? (form : Form) (k : String) : Option String :=
  (form.find? (fun p => p.1 == k)).map Prod.snd

/-- `request.form[k]` under the decorator's guarantee that `k` is present. -/
def formGet (form : Form) (k : String) : String :=
  (formGet? form k).getD ""

/-- `field not in request.form or not request.form[field].strip()`
(`app.py:42`). -/
def fieldMissing (form : Form) (k : String) : Bool :=
  match formGet? form k with
  | none => true
  | some v => pyStrip v == ""

/-- The loop of `validate_required_fields` (`app.py:37-46`): the first field
of the list that is absent or blank, if any.  The decorated handler body runs
only when this is `none`. -/
def validate_required_fields (required_fields : List String) (form : Form) :
    Option String :=
  required_fields.find? (fieldMissing form)

/-! ## Process state, time, responses -/

/-- The process-wide globals loaded at startup (`app.py:19-34`): `model`
(its single-row `predict`) and `label_encoder` (its single-id
`inverse_transform`), or `None` after a load failure.  Loaded once,
never mutated afterwards; every handler receives it read-only. -/
structure ModelState where
  model : Option (List ℚ → ℕ)
  label_encoder : Option (ℕ → String)

/-- A wall-clock instant, as used by `datetime.datetime.now()` (second
resolution; microseconds are not modelled). -/
structure DateTime where
  year : ℕ
  month : ℕ
  day : ℕ
  hour : ℕ
  minute : ℕ
  second : ℕ
deriving DecidableEq

/-- Zero-pad to two digits (`%m`, `%d`, `%H`, `%M`, `%S`). -/
def pad2 (n : ℕ) : String := if n < 10 then "0" ++ toString n else toString n

/-- Zero-pad to four digits (`%Y`). -/
def pad4 (n : ℕ) : String :=
  if n < 10 then "000" ++ toString n
  else if n < 100 then "00" ++ toString n
  else if n < 1000 then "0" ++ toString n
  else toString n

/-- `strftime('%Y-%m-%d %H:%M:%S')` (`app.py:151`). -/
def fmtDisplay (t : DateTime) : String :=
  pad4 t.year ++ "-" ++ pad2 t.month ++ "-" ++ pad2 t.day ++ " "
    ++ pad2 t.hour ++ ":" ++ pad2 t.minute ++ ":" ++ pad2 t.second

/-- `strftime('%Y%m%d_%H%M%S')` (`app.py:187`). -/
def fmtCompact (t : DateTime) : String :=
  pad4 t.year ++ pad2 t.month ++ pad2 t.day ++ "_"
    ++ pad2 t.hour ++ pad2 t.minute ++ pad2 t.second

/-- `datetime.datetime.now().isoformat()` (`app.py:209`), at second
resolution. -/
def isoFormat (t : DateTime) : String :=
  pad4 t.year ++ "-" ++ pad2 t.month ++ "-" ++ pad2 t.day ++ "T"
    ++ pad2 t.hour ++ ":" ++ pad2 t.minute ++ ":" ++ pad2 t.second

/-- One drawn element of the generated PDF, in drawing order: a bold heading,
a body text line, or the horizontal divider (`p.line`). -/
inductive DocItem where
  | heading (text : String)
  | bodyText (text : String)
  | divider
deriving DecidableEq

/-- The observable outcome of a request: a `jsonify({'error': ...}), code`
pair, the rendered `result.html`, the `/health` JSON body, or a
`send_file` download.  Non-error responses have HTTP status 200. -/
inductive Response where
  | jsonError (msg : String) (status : ℕ)
  | resultPage (crop : String) (params : List (String × String))
  | healthPage (status : String) (models_loaded : Bool) (timestamp : String)
  | fileDownload (filename : String) (mimetype : String) (doc : List DocItem)
deriving DecidableEq

/-- The HTTP status code of a response. -/
def Response.statusCode : Response → ℕ
  | .jsonError _ s => s
  | _ => 200

/-- Python's `f"{x:.d f}"` fixed-point formatting, modelled by rounding the
rational to `d` decimals, half towards `+∞` (Python rounds the binary double
half-to-even; no claim depends on the difference). -/
def fmtFixed (d : ℕ) (x : ℚ) : String :=
  let k : ℤ := 10 ^ d
  let n : ℤ := Int.fdiv (2 * x.num * k + (x.den : ℤ)) (2 * (x.den : ℤ))
  let m : ℕ := n.natAbs
  let ip : ℕ := m / 10 ^ d
  let fpDigits : String := toString (m % 10 ^ d)
  let fp : String :=
    ⟨List.replicate (d - fpDigits.data.length) '0'⟩ ++ fpDigits
  (if n < 0 then "-" else "") ++ toString ip ++ (if d = 0 then "" else "." ++ fp)

example : fmtFixed 1 (mkRat 208 10) = "20.8" := by decide
example : fmtFixed 2 (mkRat 65 10) = "6.50" := by decide
example : fmtFixed 1 (mkRat 90 1) = "90.0" := by decide

/-! ## The `/predict` handler (`app.py:75-121`) -/

/-- The decorator's field list at `app.py:76`. -/
def predictFields : List String :=
  ["N", "P", "K", "temperature", "humidity", "ph", "rainfall"]

/-- The seven sanitizer calls of `app.py:85-93`, in evaluation order:
form key, lower bound, upper bound, display name used in error messages. -/
def predictSchema : List (String × ℚ × ℚ × String) :=
  [("N", 0, 200, "Nitrogen (N)"),
   ("P", 0, 200, "Phosphorus (P)"),
   ("K", 0, 200, "Potassium (K)"),
   ("temperature", -50, 100, "Temperature"),
   ("humidity", 0, 100, "Humidity"),
   ("ph", 0, 14, "pH"),
   ("rainfall", 0, 1000, "Rainfall")]

/-- One entry of the `data` list: a bounded sanitizer call on one field. -/
def sanitizeField (form : Form) (s : String × ℚ × ℚ × String) : Except String ℚ :=
  sanitize_numeric_input (formGet form s.1) (some s.2.1) (some s.2.2.1) s.2.2.2

/-- Left-to-right evaluation of the `data = [...]` list literal: Python
evaluates the elements in order and the first `ValueError` aborts the whole
list (propagating to the `except ValueError` arm). -/
def sanitizeFields (form : Form) :
    List (String × ℚ × ℚ × String) → Except String (List ℚ)
  | [] => .ok []
  | s :: rest =>
      match sanitizeField form s with
      | .error e => .error e
      | .ok v =>
          match sanitizeFields form rest with
          | .error e => .error e
          | .ok vs => .ok (v :: vs)

/-- `data` (`app.py:85-93`): the seven sanitized values, or the first
validation error. -/
def sanitizePredictData (form : Form) : Except String (List ℚ) :=
  sanitizeFields form predictSchema

/-- The `/predict` handler (`app.py:75-121`): the decorator checks presence
of the seven fields (400), then the handler body checks the model globals
(500), sanitizes (first `ValueError` → 400 with its message), and renders
`result.html` with the decoded label and the formatted parameters. -/
def predict (st : ModelState) (form : Form) : Response :=
  match validate_required_fields predictFields form with
  | some field => .jsonError ("Missing required field: " ++ field) 400
  | none =>
      if st.model.isNone || st.label_encoder.isNone then
        .jsonError "Models not loaded properly. Please check model files." 500
      else
        match sanitizePredictData form with
        | .error e => .jsonError e 400
        | .ok data =>
            .resultPage
              ((st.label_encoder.getD (fun _ => ""))
                ((st.model.getD (fun _ => 0)) data))
              [("N", fmtFixed 1 (data.getD 0 0)),
               ("P", fmtFixed 1 (data.getD 1 0)),
               ("K", fmtFixed 1 (data.getD 2 0)),
               ("temperature", fmtFixed 1 (data.getD 3 0)),
               ("humidity", fmtFixed 1 (data.getD 4 0)),
               ("ph", fmtFixed 2 (data.getD 5 0)),
               ("rainfall", fmtFixed 1 (data.getD 6 0))]

/-! ## The `/download_report` handler (`app.py:123-200`) -/

/-- The decorator's field list at `app.py:124`. -/
def reportFields : List String :=
  ["crop", "N", "P", "K", "temperature", "humidity", "ph", "rainfall"]

/-- One entry of the `params` dict literal at `app.py:130-138`: form key,
bounds, error-message name, display key, decimals of the format, unit
suffix. -/
structure ReportField where
  key : String
  minB : ℚ
  maxB : ℚ
  errName : String
  display : String
  decimals : ℕ
  unit : String

/-- The `params` dict literal (`app.py:130-138`), in evaluation and
iteration (= insertion) order. -/
def reportSchema : List ReportField :=
  [⟨"N", 0, 200, "Nitrogen", "Nitrogen (N)", 1, " kg/ha"⟩,
   ⟨"P", 0, 200, "Phosphorus", "Phosphorus (P)", 1, " kg/ha"⟩,
   ⟨"K", 0, 200, "Potassium", "Potassium (K)", 1, " kg/ha"⟩,
   ⟨"temperature", -50, 100, "Temperature", "Temperature", 1, "°C"⟩,
   ⟨"humidity", 0, 100, "Humidity", "Humidity", 1, "%"⟩,
   ⟨"ph", 0, 14, "pH", "pH Level", 2, ""⟩,
   ⟨"rainfall", 0, 1000, "Rainfall", "Rainfall", 1, " mm"⟩]

/-- Build the formatted `params` mapping, first `ValueError` aborting. -/
def buildReportParams (form : Form) :
    List ReportField → Except String (List (String × String))
  | [] => .ok []
  | rf :: rest =>
      match sanitize_numeric_input (formGet form rf.key) (some rf.minB)
          (some rf.maxB) rf.errName with
      | .error e => .error e
      | .ok v =>
          match buildReportParams form rest with
          | .error e => .error e
          | .ok ps => .ok ((rf.display, fmtFixed rf.decimals v ++ rf.unit) :: ps)

/-- The drawing sequence of the PDF canvas (`app.py:140-184`), in the order
of the `drawString`/`line` calls: header, timestamp, divider, parameters
section with one bullet per `params` entry in iteration order, the
recommendation section with the upper-cased crop, and the two footer
captions. -/
def buildReportDoc (crop : String) (params : List (String × String))
    (now : DateTime) : List DocItem :=
  [DocItem.heading "🌾 Crop Recommendation Report",
   DocItem.bodyText ("Generated on: " ++ fmtDisplay now),
   DocItem.divider,
   DocItem.heading "📊 Input Parameters:"]
  ++ params.map (fun p => DocItem.bodyText ("• " ++ p.1 ++ ": " ++ p.2))
  ++ [DocItem.heading "🎯 Recommendation Result:",
      DocItem.heading ("Recommended Crop: " ++ pyUpper crop),
      DocItem.bodyText "Generated by AgriTech Crop Recommendation System",
      DocItem.bodyText "For agricultural guidance and optimal crop selection"]

/-- The `/download_report` handler (`app.py:123-200`): presence of the eight
fields (400), crop label trimmed and truncated to 100 characters, the seven
numeric fields sanitized (first `ValueError` → 400), then the PDF is built
and streamed with the time-suffixed attachment name.  The model globals are
never consulted (`st` is unused). -/
def download_report (st : ModelState) (form : Form) (now : DateTime) : Response :=
  match validate_required_fields reportFields form with
  | some field => .jsonError ("Missing required field: " ++ field) 400
  | none =>
      match buildReportParams form reportSchema with
      | .error e => .jsonError e 400
      | .ok params =>
          .fileDownload
            ("crop_recommendation_" ++ (sanitize_input (formGet form "crop") 100
              ++ ("_" ++ (fmtCompact now ++ ".pdf"))))
            "application/pdf"
            (buildReportDoc (sanitize_input (formGet form "crop") 100) params now)

/-! ## The `/health` handler (`app.py:203-210`) -/

/-- `health_check`: always a 200 JSON body with a fixed status string, the
model-load flag, and the current timestamp. -/
def health_check (st : ModelState) (now : DateTime) : Response :=
  .healthPage "healthy" (st.model.isSome && st.label_encoder.isSome)
    (isoFormat now)

/-! ## Statement helpers -/

/-- `msg` mentions `fld` as a substring. -/
def MentionsField (msg fld : String) : Prop :=
  ∃ a b, msg = a ++ (fld ++ b)

/-! ## Lemmas about the numeric sanitizer -/

theorem sanitize_parse_failed {v fld : String} {mn mx : Option ℚ}
    (hp : pyFloat? (cleanNumeric v) = none) :
    sanitize_numeric_input v mn mx fld =
      .error ("Invalid " ++ (fld ++ (": could not convert string to float: '"
        ++ (cleanNumeric v ++ "'")))) := by
  simp only [sanitize_numeric_input, hp]

theorem sanitize_error_below {v fld : String} {mn mx : Option ℚ} {q : ℚ}
    (hp : pyFloat? (cleanNumeric v) = some q) (hb : belowMin mn q = true) :
    sanitize_numeric_input v mn mx fld =
      .error ("Invalid " ++ (fld ++ (": " ++ (fld
        ++ (" must be at least " ++ boundStr mn))))) := by
  simp only [sanitize_numeric_input, hp, hb, if_true]

theorem sanitize_error_above {v fld : String} {mn mx : Option ℚ} {q : ℚ}
    (hp : pyFloat? (cleanNumeric v) = some q) (hb : belowMin mn q = false)
    (ha : aboveMax mx q = true) :
    sanitize_numeric_input v mn mx fld =
      .error ("Invalid " ++ (fld ++ (": " ++ (fld
        ++ (" must be at most " ++ boundStr mx))))) := by
  simp only [sanitize_numeric_input, hp, hb, ha, if_true, if_false,
    Bool.false_eq_true]

theorem sanitize_in_bounds {v fld : String} {mn mx : Option ℚ} {q : ℚ}
    (hp : pyFloat? (cleanNumeric v) = some q) (hb : belowMin mn q = false)
    (ha : aboveMax mx q = false) :
    sanitize_numeric_input v mn mx fld = .ok q := by
  simp only [sanitize_numeric_input, hp, hb, ha, if_false, Bool.false_eq_true]

theorem sanitize_ok_iff {v fld : String} {mn mx : Option ℚ} {q : ℚ} :
    sanitize_numeric_input v mn mx fld = .ok q ↔
      pyFloat? (cleanNumeric v) = some q ∧ belowMin mn q = false ∧
        aboveMax mx q = false := by
  constructor
  · intro h
    cases hp : pyFloat? (cleanNumeric v) with
    | none => rw [sanitize_parse_failed hp] at h; exact absurd h (by simp)
    | some r =>
        cases hb : belowMin mn r with
        | true => rw [sanitize_error_below hp hb] at h; exact absurd h (by simp)
        | false =>
            cases ha : aboveMax mx r with
            | true =>
                rw [sanitize_error_above hp hb ha] at h
                exact absurd h (by simp)
            | false =>
                rw [sanitize_in_bounds hp hb ha] at h
                injection h with h
                subst h
                exact ⟨rfl, hb, ha⟩
  · rintro ⟨hp, hb, ha⟩
    exact sanitize_in_bounds hp hb ha

theorem sanitize_ok_bounds {v fld : String} {mn mx : ℚ} {q : ℚ}
    (h : sanitize_numeric_input v (some mn) (some mx) fld = .ok q) :
    mn ≤ q ∧ q ≤ mx ∧ pyFloat? (cleanNumeric v) = some q := by
  obtain ⟨hp, hb, ha⟩ := sanitize_ok_iff.mp h
  refine ⟨?_, ?_, hp⟩
  · simpa [belowMin, not_lt] using hb
  · simpa [aboveMax, not_lt] using ha

theorem sanitize_error_iff {v fld : String} {mn mx : Option ℚ} :
    (∃ e, sanitize_numeric_input v mn mx fld = .error e) ↔
      (pyFloat? (cleanNumeric v) = none ∨
        ∃ q, pyFloat? (cleanNumeric v) = some q ∧
          (belowMin mn q = true ∨ aboveMax mx q = true)) := by
  constructor
  · rintro ⟨e, he⟩
    cases hp : pyFloat? (cleanNumeric v) with
    | none => exact .inl rfl
    | some r =>
        cases hb : belowMin mn r with
        | true => exact .inr ⟨r, rfl, .inl hb⟩
        | false =>
            cases ha : aboveMax mx r with
            | true => exact .inr ⟨r, rfl, .inr ha⟩
            | false =>
                rw [sanitize_in_bounds hp hb ha] at he
                exact absurd he (by simp)
  · rintro (hp | ⟨r, hp, hb | ha⟩)
    · exact ⟨_, sanitize_parse_failed hp⟩
    · exact ⟨_, sanitize_error_below hp hb⟩
    · cases hb : belowMin mn r with
      | true => exact ⟨_, sanitize_error_below hp hb⟩
      | false => exact ⟨_, sanitize_error_above hp hb ha⟩

theorem sanitize_error_mentions {v fld e : String} {mn mx : Option ℚ}
    (h : sanitize_numeric_input v mn mx fld = .error e) :
    MentionsField e fld := by
  cases hp : pyFloat? (cleanNumeric v) with
  | none =>
      rw [sanitize_parse_failed hp] at h
      injection h with h
      exact ⟨"Invalid ", _, h.symm⟩
  | some r =>
      cases hb : belowMin mn r with
      | true =>
          rw [sanitize_error_below hp hb] at h
          injection h with h
          exact ⟨"Invalid ", _, h.symm⟩
      | false =>
          cases ha : aboveMax mx r with
          | true =>
              rw [sanitize_error_above hp hb ha] at h
              injection h with h
              exact ⟨"Invalid ", _, h.symm⟩
          | false =>
              rw [sanitize_in_bounds hp hb ha] at h
              exact absurd h (by simp)

/-! ## Lemmas about the sequential field sanitization -/

theorem sanitizeFields_ok_get {form : Form}
    {l : List (String × ℚ × ℚ × String)} {vs : List ℚ}
    (h : sanitizeFields form l = .ok vs) :
    vs.length = l.length ∧
      ∀ i (hl : i < l.length) (hv : i < vs.length),
        sanitizeField form (l.get ⟨i, hl⟩) = .ok (vs.get ⟨i, hv⟩) := by
  induction l generalizing vs with
  | nil =>
      simp only [sanitizeFields] at h
      cases h
      exact ⟨rfl, by intro i hl; exact absurd hl (by simp)⟩
  | cons s rest ih =>
      simp only [sanitizeFields] at h
      cases hs : sanitizeField form s with
      | error e => rw [hs] at h; exact absurd h (by simp)
      | ok v =>
          rw [hs] at h
          cases hr : sanitizeFields form rest with
          | error e => rw [hr] at h; exact absurd h (by simp)
          | ok ws =>
              rw [hr] at h
              cases h
              obtain ⟨hlen, hget⟩ := ih hr
              refine ⟨by simp [hlen], ?_⟩
              intro i hl hv
              cases i with
              | zero => simpa using hs
              | succ j =>
                  simpa using hget j (by simpa using hl) (by simpa using hv)

theorem sanitizeFields_error_at {form : Form}
    {l : List (String × ℚ × ℚ × String)} {i : ℕ} (hi : i < l.length)
    {e : String}
    (hprev : ∀ j (hj : j < l.length), j < i →
      ∃ v, sanitizeField form (l.get ⟨j, hj⟩) = .ok v)
    (herr : sanitizeField form (l.get ⟨i, hi⟩) = .error e) :
    sanitizeFields form l = .error e := by
  induction l generalizing i with
  | nil => exact absurd hi (by simp)
  | cons s rest ih =>
      cases i with
      | zero =>
          simp only [List.get] at herr
          simp only [sanitizeFields, herr]
      | succ j =>
          obtain ⟨v, hv⟩ := hprev 0 (by simp) (Nat.succ_pos j)
          simp only [List.get] at hv herr
          simp only [sanitizeFields, hv]
          rw [ih (by simpa using hi) ?_ herr]
          intro j' hj' hlt
          simpa using hprev (j' + 1) (by simpa using hj')
            (Nat.succ_lt_succ hlt)

theorem sanitizeFields_ok_of {form : Form}
    {l : List (String × ℚ × ℚ × String)}
    (h : ∀ s ∈ l, ∃ v, sanitizeField form s = .ok v) :
    ∃ vs, sanitizeFields form l = .ok vs := by
  induction l with
  | nil => exact ⟨[], rfl⟩
  | cons s rest ih =>
      obtain ⟨v, hv⟩ := h s (by simp)
      obtain ⟨vs, hvs⟩ := ih (fun s' hs' => h s' (by simp [hs']))
      exact ⟨v :: vs, by simp only [sanitizeFields, hv, hvs]⟩

/-! ## Lemma about the required-field loop -/

theorem find_first_missing {fields : List String} {form : Form} {f : String}
    (h : validate_required_fields fields form = some f) :
    fieldMissing form f = true ∧
      ∃ pre post, fields = pre ++ f :: post ∧
        ∀ g ∈ pre, fieldMissing form g = false := by
  induction fields with
  | nil => exact absurd h (by simp [validate_required_fields])
  | cons a rest ih =>
      unfold validate_required_fields at h
      rw [List.find?_cons] at h
      cases ha : fieldMissing form a with
      | true =>
          rw [ha] at h
          cases h
          exact ⟨ha, [], rest, rfl, by simp⟩
      | false =>
          rw [ha] at h
          obtain ⟨hf, pre, post, hsplit, hpre⟩ := ih h
          refine ⟨hf, a :: pre, post, by simp [hsplit], ?_⟩
          intro g hg
          rcases List.mem_cons.mp hg with rfl | hg'
          · exact ha
          · exact hpre g hg'

/-! ## Unfolding lemmas for the handlers -/

theorem predict_eq_missing {form : Form} {f : String}
    (h : validate_required_fields predictFields form = some f) (st : ModelState) :
    predict st form = .jsonError ("Missing required field: " ++ f) 400 := by
  simp only [predict, h]

theorem predict_eq_unloaded {form : Form} {st : ModelState}
    (h : validate_required_fields predictFields form = none)
    (h2 : (st.model.isNone || st.label_encoder.isNone) = true) :
    predict st form =
      .jsonError "Models not loaded properly. Please check model files." 500 := by
  simp only [predict, h, h2, if_true]

theorem predict_eq_invalid {form : Form} {e : String}
    (h : validate_required_fields predictFields form = none)
    (he : sanitizePredictData form = .error e)
    (m : List ℚ → ℕ) (enc : ℕ → String) :
    predict ⟨some m, some enc⟩ form = .jsonError e 400 := by
  simp only [predict, h, he, Option.isNone_some, Bool.or_self,
    Bool.false_eq_true, if_false]

theorem predict_eq_ok {form : Form} {data : List ℚ}
    (h : validate_required_fields predictFields form = none)
    (hok : sanitizePredictData form = .ok data)
    (m : List ℚ → ℕ) (enc : ℕ → String) :
    predict ⟨some m, some enc⟩ form =
      .resultPage (enc (m data))
        [("N", fmtFixed 1 (data.getD 0 0)),
         ("P", fmtFixed 1 (data.getD 1 0)),
         ("K", fmtFixed 1 (data.getD 2 0)),
         ("temperature", fmtFixed 1 (data.getD 3 0)),
         ("humidity", fmtFixed 1 (data.getD 4 0)),
         ("ph", fmtFixed 2 (data.getD 5 0)),
         ("rainfall", fmtFixed 1 (data.getD 6 0))] := by
  simp only [predict, h, hok, Option.isNone_some, Bool.or_self,
    Bool.false_eq_true, if_false, Option.getD_some]

theorem download_report_eq_missing {form : Form} {f : String}
    (h : validate_required_fields reportFields form = some f) (st : ModelState)
    (now : DateTime) :
    download_report st form now =
      .jsonError ("Missing required field: " ++ f) 400 := by
  simp only [download_report, h]

theorem download_report_eq_invalid {form : Form} {e : String}
    (h : validate_required_fields reportFields form = none)
    (he : buildReportParams form reportSchema = .error e) (st : ModelState)
    (now : DateTime) :
    download_report st form now = .jsonError e 400 := by
  simp only [download_report, h, he]

theorem download_report_eq_ok {form : Form} {params : List (String × String)}
    (h : validate_required_fields reportFields form = none)
    (hok : buildReportParams form reportSchema = .ok params) (st : ModelState)
    (now : DateTime) :
    download_report st form now =
      .fileDownload
        ("crop_recommendation_" ++ (sanitize_input (formGet form "crop") 100
          ++ ("_" ++ (fmtCompact now ++ ".pdf"))))
        "application/pdf"
        (buildReportDoc (sanitize_input (formGet form "crop") 100) params now) := by
  simp only [download_report, h, hok]

/-! ## Concrete fixtures used by the witnesses -/

/-- A stand-in loaded classifier (opaque black box per the spec). -/
def cmodel : List ℚ → ℕ := fun _ => 3

/-- A stand-in loaded label decoder. -/
def cencoder : ℕ → String := fun n => if n = 3 then "rice" else "unknown"

/-- The spec's example `/predict` submission. -/
def riceForm : Form :=
  [("N", "90"), ("P", "42"), ("K", "43"), ("temperature", "20.8"),
   ("humidity", "82"), ("ph", "6.5"), ("rainfall", "202.9")]

/-- The spec's example `/download_report` submission. -/
def reportForm : Form := ("crop", "rice") :: riceForm

/-- A fixed request instant. -/
def t0 : DateTime := ⟨2025, 10, 12, 14, 30, 5⟩

/-! ## Claims -/

/-- C1: every one of the seven numeric values passed to the classifier lies
within its declared inclusive bounds (per `predictSchema`, i.e. N,P,K ∈
[0,200], temperature ∈ [-50,100], humidity ∈ [0,100], pH ∈ [0,14], rainfall
∈ [0,1000]); and when any field is out of range or unparseable the request
short-circuits with an error — the response does not depend on the classifier
or decoder (they are never invoked) and, when the seven fields are present,
it is exactly the 400 validation error. -/
theorem C1_bounds_before_classifier (form : Form) :
    (∀ data, sanitizePredictData form = .ok data →
       ∀ i (hi : i < predictSchema.length) (hd : i < data.length),
         (predictSchema.get ⟨i, hi⟩).2.1 ≤ data.get ⟨i, hd⟩ ∧
           data.get ⟨i, hd⟩ ≤ (predictSchema.get ⟨i, hi⟩).2.2.1) ∧
    (∀ e, sanitizePredictData form = .error e →
       (∀ m₁ enc₁ m₂ enc₂, predict ⟨some m₁, some enc₁⟩ form
          = predict ⟨some m₂, some enc₂⟩ form) ∧
       (validate_required_fields predictFields form = none →
          ∀ m enc, predict ⟨some m, some enc⟩ form = .jsonError e 400)) := by
  constructor
  · intro data hok i hi hd
    simp only [sanitizePredictData] at hok
    have hget := (sanitizeFields_ok_get hok).2 i hi hd
    simp only [sanitizeField] at hget
    have hb := sanitize_ok_bounds hget
    exact ⟨hb.1, hb.2.1⟩
  · intro e he
    constructor
    · intro m₁ enc₁ m₂ enc₂
      cases hv : validate_required_fields predictFields form with
      | some f => rw [predict_eq_missing hv, predict_eq_missing hv]
      | none => rw [predict_eq_invalid hv he, predict_eq_invalid hv he]
    · intro hv m enc
      exact predict_eq_invalid hv he m enc

/-- C1 witness: with a loaded state and pH = "99" (out of [0,14]), the
request short-circuits with the 400 validation error. -/
theorem C1_witness :
    predict ⟨some cmodel, some cencoder⟩
      [("N", "90"), ("P", "42"), ("K", "43"), ("temperature", "20.8"),
       ("humidity", "82"), ("ph", "99"), ("rainfall", "202.9")]
      = .jsonError "Invalid pH: pH must be at most 14" 400 :=
  ((C1_bounds_before_classifier _).2 _ (by decide)).2 (by decide) cmodel cencoder

/-- C2: the numeric sanitizer first deletes every character other than
digits, `.` and `-` (`cleanNumeric`), parses the remainder as a float, and
fails exactly when that parse fails or the parsed value violates a given
bound; every failure message mentions the field name; in the remaining case
it returns the parsed value.  Purity is by construction: the embedding is a
total function of its four arguments. -/
theorem C2_sanitizer_contract (value field_name : String) (mn mx : Option ℚ) :
    ((∃ e, sanitize_numeric_input value mn mx field_name = .error e) ↔
       (pyFloat? (cleanNumeric value) = none ∨
         ∃ q, pyFloat? (cleanNumeric value) = some q ∧
           (belowMin mn q = true ∨ aboveMax mx q = true))) ∧
    (∀ e, sanitize_numeric_input value mn mx field_name = .error e →
       MentionsField e field_name) ∧
    (∀ q, pyFloat? (cleanNumeric value) = some q → belowMin mn q = false →
       aboveMax mx q = false →
       sanitize_numeric_input value mn mx field_name = .ok q) :=
  ⟨sanitize_error_iff, fun _ he => sanitize_error_mentions he,
   fun _ hp hb ha => sanitize_in_bounds hp hb ha⟩

/-- C2 witness: "20.8" is accepted as 20.8 for Temperature ∈ [-50,100], and
the failure message for "-60" mentions the field name. -/
theorem C2_witness :
    sanitize_numeric_input "20.8" (some (-50)) (some 100) "Temperature"
      = .ok (mkRat 208 10) ∧
    MentionsField "Invalid Temperature: Temperature must be at least -50"
      "Temperature" :=
  ⟨(C2_sanitizer_contract "20.8" "Temperature" (some (-50)) (some 100)).2.2
      _ (by decide) (by decide) (by decide),
   (C2_sanitizer_contract "-60" "Temperature" (some (-50)) (some 100)).2.1
      _ (by decide)⟩

/-- C4: a `/predict` or `/download_report` request in which some required
field is absent or blank gets the 400 "Missing required field" response
naming the first missing field in the decorator's declared order (every
earlier field of the list is present and non-blank); the status is 400, not
500, and the response is produced by the decorator alone, before any field
is parsed. -/
theorem C4_missing_field_first (st : ModelState) (form : Form)
    (now : DateTime) (f : String) :
    (validate_required_fields predictFields form = some f →
       predict st form = .jsonError ("Missing required field: " ++ f) 400 ∧
       (predict st form).statusCode = 400 ∧
       fieldMissing form f = true ∧
       ∃ pre post, predictFields = pre ++ f :: post ∧
         ∀ g ∈ pre, fieldMissing form g = false) ∧
    (validate_required_fields reportFields form = some f →
       download_report st form now
         = .jsonError ("Missing required field: " ++ f) 400 ∧
       (download_report st form now).statusCode = 400 ∧
       fieldMissing form f = true ∧
       ∃ pre post, reportFields = pre ++ f :: post ∧
         ∀ g ∈ pre, fieldMissing form g = false) := by
  constructor
  · intro h
    obtain ⟨hmiss, hsplit⟩ := find_first_missing h
    exact ⟨predict_eq_missing h st,
      by rw [predict_eq_missing h st]; rfl, hmiss, hsplit⟩
  · intro h
    obtain ⟨hmiss, hsplit⟩ := find_first_missing h
    exact ⟨download_report_eq_missing h st now,
      by rw [download_report_eq_missing h st now]; rfl, hmiss, hsplit⟩

/-- C4 witness: a `/predict` form without "K" gets the 400 naming "K", and
a `/download_report` form whose "crop" is whitespace gets the 400 naming
"crop"; neither is a 500. -/
theorem C4_witness :
    predict ⟨some cmodel, some cencoder⟩
        [("N", "90"), ("P", "42"), ("temperature", "20.8"),
         ("humidity", "82"), ("ph", "6.5"), ("rainfall", "202.9")]
      = .jsonError "Missing required field: K" 400 ∧
    download_report ⟨none, none⟩ (("crop", "   ") :: riceForm) t0
      = .jsonError "Missing required field: crop" 400 :=
  ⟨((C4_missing_field_first ⟨some cmodel, some cencoder⟩ _ t0 "K").1
      (by decide)).1,
   ((C4_missing_field_first ⟨none, none⟩ (("crop", "   ") :: riceForm) t0
      "crop").2 (by decide)).1⟩

/-- C5 counterexample: the claim says a request with all seven fields
present but an invalid value (here pH = "99") is answered 400 with the
validation message even when the model artifacts failed to load; the code
checks the model globals *before* sanitizing (`app.py:80` vs `app.py:85`),
so the response is the 500 models-not-loaded error instead. -/
theorem C5_counterexample :
    predict ⟨none, none⟩
        [("N", "90"), ("P", "42"), ("K", "43"), ("temperature", "20.8"),
         ("humidity", "82"), ("ph", "99"), ("rainfall", "202.9")]
      = .jsonError "Models not loaded properly. Please check model files." 500
    ∧ (predict ⟨none, none⟩
        [("N", "90"), ("P", "42"), ("K", "43"), ("temperature", "20.8"),
         ("humidity", "82"), ("ph", "99"), ("rainfall", "202.9")]).statusCode
      ≠ 400 := by decide

/-- C5 amended: the `/predict` stages run in the order field-presence
validation (400), then the models-availability check (500), then the Input
Sanitizer (400 on its first validation error); consequently a request with
all seven fields present but an invalid value is answered 400 with the
validation message only when the models are loaded, and 500 when they are
not. -/
theorem C5_stage_order (form : Form) :
    (∀ f, validate_required_fields predictFields form = some f →
       ∀ st, predict st form
         = .jsonError ("Missing required field: " ++ f) 400) ∧
    (validate_required_fields predictFields form = none →
       ∀ st : ModelState, (st.model.isNone || st.label_encoder.isNone) = true →
         predict st form
           = .jsonError "Models not loaded properly. Please check model files."
               500) ∧
    (validate_required_fields predictFields form = none →
       ∀ e, sanitizePredictData form = .error e →
         ∀ m enc, predict ⟨some m, some enc⟩ form = .jsonError e 400) :=
  ⟨fun _ h st => predict_eq_missing h st,
   fun h st h2 => predict_eq_unloaded h h2,
   fun h _ he m enc => predict_eq_invalid h he m enc⟩

/-- C5 amended witness: with pH = "99" the same form gets the 500
models-not-loaded error when the state is degraded and the 400 validation
error when the models are loaded. -/
theorem C5_witness :
    predict ⟨none, none⟩
        [("N", "90"), ("P", "42"), ("K", "43"), ("temperature", "20.8"),
         ("humidity", "82"), ("ph", "99"), ("rainfall", "202.9")]
      = .jsonError "Models not loaded properly. Please check model files." 500
    ∧ predict ⟨some cmodel, some cencoder⟩
        [("N", "90"), ("P", "42"), ("K", "43"), ("temperature", "20.8"),
         ("humidity", "82"), ("ph", "99"), ("rainfall", "202.9")]
      = .jsonError "Invalid pH: pH must be at most 14" 400 :=
  ⟨(C5_stage_order _).2.1 (by decide) ⟨none, none⟩ (by decide),
   (C5_stage_order _).2.2 (by decide) _ (by decide) cmodel cencoder⟩

/-- C6: when either model artifact failed to load, every `/predict` request
with the seven fields present is answered 500 with the models-not-loaded
message (no inference is attempted: the state holds no classifier), and
`/health` still answers 200 with the fixed status string,
`models_loaded = false` and the current timestamp; the state is read-only,
so the degraded behaviour persists for every request of the process
lifetime, and `/health` is 200 regardless of the load state. -/
theorem C6_degraded_state (st : ModelState)
    (h : (st.model.isNone || st.label_encoder.isNone) = true) (form : Form)
    (hpres : validate_required_fields predictFields form = none)
    (now : DateTime) :
    predict st form
      = .jsonError "Models not loaded properly. Please check model files." 500
    ∧ health_check st now = .healthPage "healthy" false (isoFormat now)
    ∧ (health_check st now).statusCode = 200
    ∧ ∀ st' : ModelState, (health_check st' now).statusCode = 200 := by
  refine ⟨predict_eq_unloaded hpres h, ?_, rfl, fun _ => rfl⟩
  obtain ⟨m, enc⟩ := st
  cases m <;> cases enc <;> simp_all [health_check]

/-- C6 witness: the degraded state answers the example form with the 500
error and reports `models_loaded = false` on `/health` with status 200. -/
theorem C6_witness :
    predict ⟨none, none⟩ riceForm
      = .jsonError "Models not loaded properly. Please check model files." 500
    ∧ health_check ⟨none, none⟩ t0
      = .healthPage "healthy" false (isoFormat t0)
    ∧ isoFormat t0 = "2025-10-12T14:30:05" :=
  ⟨(C6_degraded_state ⟨none, none⟩ (by decide) riceForm (by decide) t0).1,
   (C6_degraded_state ⟨none, none⟩ (by decide) riceForm (by decide) t0).2.1,
   by decide⟩

/-- C7: for a fixed model state, the label produced by the pipeline of
sanitization, classifier predict and label decoding is a function of the
sanitized 7-value vector alone: two submissions whose fields sanitize to the
same vector (in particular, two submissions of the same form) receive the
same response, and any rendered label equals the decoding of the
classifier's output on that vector. -/
theorem C7_deterministic_pipeline (m : List ℚ → ℕ) (enc : ℕ → String)
    (form₁ form₂ : Form) (data : List ℚ)
    (h1 : validate_required_fields predictFields form₁ = none)
    (h2 : validate_required_fields predictFields form₂ = none)
    (hd1 : sanitizePredictData form₁ = .ok data)
    (hd2 : sanitizePredictData form₂ = .ok data) :
    predict ⟨some m, some enc⟩ form₁ = predict ⟨some m, some enc⟩ form₂ ∧
    ∀ c p, predict ⟨some m, some enc⟩ form₁ = .resultPage c p →
      c = enc (m data) := by
  constructor
  · rw [predict_eq_ok h1 hd1 m enc, predict_eq_ok h2 hd2 m enc]
  · intro c p h
    rw [predict_eq_ok h1 hd1 m enc] at h
    injection h with h
    exact h.symm

/-- C7 witness: the example form and a variant writing pH as "6.50" sanitize
to the same vector and receive the same response, whose label is "rice". -/
theorem C7_witness :
    predict ⟨some cmodel, some cencoder⟩ riceForm
      = predict ⟨some cmodel, some cencoder⟩
          [("N", "90"), ("P", "42"), ("K", "43"), ("temperature", "20.8"),
           ("humidity", "82"), ("ph", "6.50"), ("rainfall", "202.9")] ∧
    ∀ c p, predict ⟨some cmodel, some cencoder⟩ riceForm = .resultPage c p →
      c = "rice" :=
  ⟨(C7_deterministic_pipeline cmodel cencoder _ _
      [mkRat 90 1, mkRat 42 1, mkRat 43 1, mkRat 208 10, mkRat 82 1,
       mkRat 65 10, mkRat 2029 10]
      (by decide) (by decide) (by decide) (by decide)).1,
   (C7_deterministic_pipeline cmodel cencoder riceForm riceForm
      [mkRat 90 1, mkRat 42 1, mkRat 43 1, mkRat 208 10, mkRat 82 1,
       mkRat 65 10, mkRat 2029 10]
      (by decide) (by decide) (by decide) (by decide)).2⟩

/-- C3: for each of the seven numeric fields of `/predict` (row `i` of
`predictSchema`), when the models are loaded, the earlier fields sanitize
successfully and field `i`'s submitted value parses to `q`: if `q` is
strictly below the declared minimum or strictly above the declared maximum,
the response is a 400 whose error message mentions the field's display name;
if `q` equals the minimum or the maximum exactly, validation passes for that
field (the sanitizer returns `q`). -/
theorem C3_range_min_max (form : Form) (i : ℕ)
    (hi : i < predictSchema.length)
    (hpres : validate_required_fields predictFields form = none)
    (hprev : ∀ j (hj : j < predictSchema.length), j < i →
       ∃ v, sanitizeField form (predictSchema.get ⟨j, hj⟩) = .ok v)
    (q : ℚ)
    (hq : pyFloat? (cleanNumeric (formGet form (predictSchema.get ⟨i, hi⟩).1))
      = some q) :
    ((q < (predictSchema.get ⟨i, hi⟩).2.1 ∨
        (predictSchema.get ⟨i, hi⟩).2.2.1 < q) →
       ∀ m enc, ∃ msg, predict ⟨some m, some enc⟩ form = .jsonError msg 400 ∧
         MentionsField msg (predictSchema.get ⟨i, hi⟩).2.2.2) ∧
    ((q = (predictSchema.get ⟨i, hi⟩).2.1 ∨
        q = (predictSchema.get ⟨i, hi⟩).2.2.1) →
       sanitizeField form (predictSchema.get ⟨i, hi⟩) = .ok q) := by
  have hcmp : (predictSchema.get ⟨i, hi⟩).2.1
      ≤ (predictSchema.get ⟨i, hi⟩).2.2.1 := by
    have h7 : i < 7 := by simpa [predictSchema] using hi
    interval_cases i <;> exact of_decide_eq_true rfl
  constructor
  · rintro (hlt | hgt) m enc
    · have herr : sanitizeField form (predictSchema.get ⟨i, hi⟩) = .error
          ("Invalid " ++ ((predictSchema.get ⟨i, hi⟩).2.2.2 ++ (": "
            ++ ((predictSchema.get ⟨i, hi⟩).2.2.2 ++ (" must be at least "
            ++ boundStr (some (predictSchema.get ⟨i, hi⟩).2.1)))))) :=
        sanitize_error_below hq
          (by simp only [belowMin, decide_eq_true_eq]; exact hlt)
      refine ⟨_, predict_eq_invalid hpres
        (sanitizeFields_error_at hi hprev herr) m enc, ?_⟩
      exact sanitize_error_mentions herr
    · have hb : belowMin (some (predictSchema.get ⟨i, hi⟩).2.1) q = false := by
        simp only [belowMin, decide_eq_false_iff_not, not_lt]
        exact hcmp.trans hgt.le
      have herr : sanitizeField form (predictSchema.get ⟨i, hi⟩) = .error
          ("Invalid " ++ ((predictSchema.get ⟨i, hi⟩).2.2.2 ++ (": "
            ++ ((predictSchema.get ⟨i, hi⟩).2.2.2 ++ (" must be at most "
            ++ boundStr (some (predictSchema.get ⟨i, hi⟩).2.2.1)))))) :=
        sanitize_error_above hq hb
          (by simp only [aboveMax, decide_eq_true_eq]; exact hgt)
      refine ⟨_, predict_eq_invalid hpres
        (sanitizeFields_error_at hi hprev herr) m enc, ?_⟩
      exact sanitize_error_mentions herr
  · rintro (rfl | rfl)
    · exact sanitize_in_bounds hq
        (by simp only [belowMin, decide_eq_false_iff_not]; exact lt_irrefl _)
        (by simp only [aboveMax, decide_eq_false_iff_not, not_lt]; exact hcmp)
    · exact sanitize_in_bounds hq
        (by simp only [belowMin, decide_eq_false_iff_not, not_lt]; exact hcmp)
        (by simp only [aboveMax, decide_eq_false_iff_not]; exact lt_irrefl _)

/-- C3 witness: temperature = "-60" (strictly below -50) yields a 400
mentioning "Temperature", and temperature = "-50" (exactly the minimum) is
accepted by the sanitizer. -/
theorem C3_witness :
    (∃ msg, predict ⟨some cmodel, some cencoder⟩
        [("N", "90"), ("P", "42"), ("K", "43"), ("temperature", "-60"),
         ("humidity", "82"), ("ph", "6.5"), ("rainfall", "202.9")]
      = .jsonError msg 400 ∧ MentionsField msg "Temperature") ∧
    sanitizeField
        [("N", "90"), ("P", "42"), ("K", "43"), ("temperature", "-50"),
         ("humidity", "82"), ("ph", "6.5"), ("rainfall", "202.9")]
        (predictSchema.get ⟨3, by decide⟩) = .ok (-50 : ℚ) :=
  ⟨(C3_range_min_max
      [("N", "90"), ("P", "42"), ("K", "43"), ("temperature", "-60"),
       ("humidity", "82"), ("ph", "6.5"), ("rainfall", "202.9")]
      3 (by decide) (by decide)
      (by intro j hj h3
          interval_cases j
          · exact ⟨mkRat 90 1, of_decide_eq_true rfl⟩
          · exact ⟨mkRat 42 1, of_decide_eq_true rfl⟩
          · exact ⟨mkRat 43 1, of_decide_eq_true rfl⟩)
      (-60 : ℚ) (by decide)).1 (.inl (by decide)) cmodel cencoder,
   (C3_range_min_max
      [("N", "90"), ("P", "42"), ("K", "43"), ("temperature", "-50"),
       ("humidity", "82"), ("ph", "6.5"), ("rainfall", "202.9")]
      3 (by decide) (by decide)
      (by intro j hj h3
          interval_cases j
          · exact ⟨mkRat 90 1, of_decide_eq_true rfl⟩
          · exact ⟨mkRat 42 1, of_decide_eq_true rfl⟩
          · exact ⟨mkRat 43 1, of_decide_eq_true rfl⟩)
      (-50 : ℚ) (by decide)).2 (.inl (by decide))⟩

/-- C8: a valid `/download_report` request produces the document whose items
are, in order: the title, the generation timestamp, the divider, the
parameters section heading, one bullet line per `params` entry in mapping
iteration order, the result heading, the recommendation line with the
upper-cased crop label, and the fixed footer captions; the attachment
filename is `crop_recommendation_<label>_<YYYYMMDD_HHMMSS>.pdf` built from
the sanitized crop label and the current timestamp. -/
theorem C8_report_layout (st : ModelState) (form : Form) (now : DateTime)
    (params : List (String × String))
    (hpres : validate_required_fields reportFields form = none)
    (hok : buildReportParams form reportSchema = .ok params) :
    download_report st form now =
      .fileDownload
        ("crop_recommendation_" ++ (sanitize_input (formGet form "crop") 100
          ++ ("_" ++ (fmtCompact now ++ ".pdf"))))
        "application/pdf"
        ([DocItem.heading "🌾 Crop Recommendation Report",
          DocItem.bodyText ("Generated on: " ++ fmtDisplay now),
          DocItem.divider,
          DocItem.heading "📊 Input Parameters:"]
         ++ params.map (fun p => DocItem.bodyText ("• " ++ p.1 ++ ": " ++ p.2))
         ++ [DocItem.heading "🎯 Recommendation Result:",
             DocItem.heading ("Recommended Crop: "
               ++ pyUpper (sanitize_input (formGet form "crop") 100)),
             DocItem.bodyText "Generated by AgriTech Crop Recommendation System",
             DocItem.bodyText
               "For agricultural guidance and optimal crop selection"]) := by
  rw [download_report_eq_ok hpres hok st now]
  rfl

/-- The document produced for the example report request at `t0`. -/
def riceDoc : List DocItem :=
  [DocItem.heading "🌾 Crop Recommendation Report",
   DocItem.bodyText "Generated on: 2025-10-12 14:30:05",
   DocItem.divider,
   DocItem.heading "📊 Input Parameters:",
   DocItem.bodyText "• Nitrogen (N): 90.0 kg/ha",
   DocItem.bodyText "• Phosphorus (P): 42.0 kg/ha",
   DocItem.bodyText "• Potassium (K): 43.0 kg/ha",
   DocItem.bodyText "• Temperature: 20.8°C",
   DocItem.bodyText "• Humidity: 82.0%",
   DocItem.bodyText "• pH Level: 6.50",
   DocItem.bodyText "• Rainfall: 202.9 mm",
   DocItem.heading "🎯 Recommendation Result:",
   DocItem.heading "Recommended Crop: RICE",
   DocItem.bodyText "Generated by AgriTech Crop Recommendation System",
   DocItem.bodyText "For agricultural guidance and optimal crop selection"]

/-- C8 witness: the spec's example request, fully evaluated. -/
theorem C8_witness :
    download_report ⟨none, none⟩ reportForm t0
      = .fileDownload "crop_recommendation_rice_20251012_143005.pdf"
          "application/pdf" riceDoc := by
  rw [C8_report_layout ⟨none, none⟩ reportForm t0
    [("Nitrogen (N)", "90.0 kg/ha"), ("Phosphorus (P)", "42.0 kg/ha"),
     ("Potassium (K)", "43.0 kg/ha"), ("Temperature", "20.8°C"),
     ("Humidity", "82.0%"), ("pH Level", "6.50"), ("Rainfall", "202.9 mm")]
    (by decide) (by decide)]
  decide

/-- C9: `/download_report` never invokes the classifier or the label
decoder — its outcome is identical for any two model states (in particular
loaded vs. failed); and in every successful response the "Recommended Crop"
line and the filename label are exactly the caller-supplied `crop` form
field, trimmed and truncated to 100 characters (`sanitize_input _ 100`). -/
theorem C9_report_echoes_caller (st₁ st₂ : ModelState) (form : Form)
    (now : DateTime) :
    download_report st₁ form now = download_report st₂ form now ∧
    ∀ fn mt doc, download_report st₁ form now = .fileDownload fn mt doc →
      fn = "crop_recommendation_" ++ (sanitize_input (formGet form "crop") 100
            ++ ("_" ++ (fmtCompact now ++ ".pdf"))) ∧
      DocItem.heading ("Recommended Crop: "
          ++ pyUpper (sanitize_input (formGet form "crop") 100)) ∈ doc := by
  refine ⟨rfl, ?_⟩
  intro fn mt doc h
  cases hv : validate_required_fields reportFields form with
  | some f =>
      rw [download_report_eq_missing hv st₁ now] at h
      simp at h
  | none =>
      cases hparams : buildReportParams form reportSchema with
      | error e =>
          rw [download_report_eq_invalid hv hparams st₁ now] at h
          simp at h
      | ok ps =>
          rw [download_report_eq_ok hv hparams st₁ now] at h
          injection h with h1 h2 h3
          subst h1
          subst h3
          exact ⟨rfl, by simp [buildReportDoc]⟩

/-- C9 witness: the example report request gets the same response under the
degraded and the loaded state, and its crop line and filename echo the
caller's "rice". -/
theorem C9_witness :
    download_report ⟨none, none⟩ reportForm t0
      = download_report ⟨some cmodel, some cencoder⟩ reportForm t0 ∧
    "crop_recommendation_rice_20251012_143005.pdf"
      = "crop_recommendation_" ++ (sanitize_input (formGet reportForm "crop") 100
          ++ ("_" ++ (fmtCompact t0 ++ ".pdf"))) ∧
    DocItem.heading ("Recommended Crop: "
        ++ pyUpper (sanitize_input (formGet reportForm "crop") 100)) ∈ riceDoc :=
  ⟨(C9_report_echoes_caller ⟨none, none⟩ ⟨some cmodel, some cencoder⟩
      reportForm t0).1,
   ((C9_report_echoes_caller ⟨none, none⟩ ⟨some cmodel, some cencoder⟩
      reportForm t0).2 "crop_recommendation_rice_20251012_143005.pdf"
      "application/pdf" riceDoc (by decide)).1,
   ((C9_report_echoes_caller ⟨none, none⟩ ⟨some cmodel, some cencoder⟩
      reportForm t0).2 "crop_recommendation_rice_20251012_143005.pdf"
      "application/pdf" riceDoc (by decide)).2⟩

/-! ### Character-class lemmas for C10 -/

theorem isDigit_beq_dot {c : Char} (h : c.isDigit = true) :
    (c == '.') = false := by
  cases hc : c == '.' with
  | false => rfl
  | true =>
      have hce : c = '.' := by simpa using hc
      subst hce
      exact absurd h (by decide)

theorem isDigit_beq_minus {c : Char} (h : c.isDigit = true) :
    (c == '-') = false := by
  cases hc : c == '-' with
  | false => rfl
  | true =>
      have hce : c = '-' := by simpa using hc
      subst hce
      exact absurd h (by decide)

theorem isDigit_beq_plus {c : Char} (h : c.isDigit = true) :
    (c == '+') = false := by
  cases hc : c == '+' with
  | false => rfl
  | true =>
      have hce : c = '+' := by simpa using hc
      subst hce
      exact absurd h (by decide)

theorem isAlpha_beq_dot {c : Char} (h : c.isAlpha = true) :
    (c == '.') = false := by
  cases hc : c == '.' with
  | false => rfl
  | true =>
      have hce : c = '.' := by simpa using hc
      subst hce
      exact absurd h (by decide)

theorem isAlpha_beq_minus {c : Char} (h : c.isAlpha = true) :
    (c == '-') = false := by
  cases hc : c == '-' with
  | false => rfl
  | true =>
      have hce : c = '-' := by simpa using hc
      subst hce
      exact absurd h (by decide)

/-- C10 amended: for every input consisting only of letters and digits with
at least one digit, the numeric sanitizer never fails the parse: cleaning
deletes exactly the letters and the residual digit string parses to its
decimal value (e.g. "9a0" ↦ 90, "1e5" ↦ 15); the sanitizer then accepts
that residual value whenever it lies within the declared bounds — so such a
`/predict` request succeeds with a possibly different value than the caller
intended — and rejects it (400 path) only for a bounds violation, never for
unparseability. -/
theorem C10_letters_deleted (s : String)
    (halpha : s.data.all (fun c => c.isAlpha || c.isDigit) = true)
    (hdig : s.data.filter Char.isDigit ≠ []) :
    pyFloat? (cleanNumeric s)
      = some (mkRat (digitsVal (s.data.filter Char.isDigit)) 1) ∧
    ∀ mn mx fld,
      belowMin mn (mkRat (digitsVal (s.data.filter Char.isDigit)) 1) = false →
      aboveMax mx (mkRat (digitsVal (s.data.filter Char.isDigit)) 1) = false →
      sanitize_numeric_input s mn mx fld
        = .ok (mkRat (digitsVal (s.data.filter Char.isDigit)) 1) := by
  have hmem : ∀ c ∈ s.data, c.isAlpha = true ∨ c.isDigit = true := by
    intro c hc
    have := List.all_eq_true.mp halpha c hc
    simpa using this
  have hclean : cleanNumeric s = ⟨s.data.filter Char.isDigit⟩ := by
    unfold cleanNumeric
    congr 1
    apply List.filter_congr
    intro c hc
    cases hd : c.isDigit with
    | true => simp [keepNumericChar, hd]
    | false =>
        rcases hmem c hc with ha | ha
        · simp [keepNumericChar, hd, isAlpha_beq_dot ha, isAlpha_beq_minus ha]
        · rw [ha] at hd; cases hd
  have hall : (s.data.filter Char.isDigit).all Char.isDigit = true := by
    apply List.all_eq_true.mpr
    intro c hc
    simpa using (List.mem_filter.mp hc).2
  have hmag : parseMagnitude (s.data.filter Char.isDigit)
      = some (digitsVal (s.data.filter Char.isDigit), 1) := by
    have hdrop : (s.data.filter Char.isDigit).dropWhile
        (fun c => !(c == '.')) = [] := by
      apply List.dropWhile_eq_nil_iff.mpr
      intro c hc
      simp [isDigit_beq_dot (by simpa using (List.mem_filter.mp hc).2)]
    simp only [parseMagnitude, hdrop]
    simp [hdig, hall, List.isEmpty_iff]
  have hparse : pyFloat? (cleanNumeric s)
      = some (mkRat (digitsVal (s.data.filter Char.isDigit)) 1) := by
    rw [hclean]
    show pyFloatChars (s.data.filter Char.isDigit) = _
    cases hds : s.data.filter Char.isDigit with
    | nil => exact absurd hds hdig
    | cons d rest =>
        have hd : d.isDigit = true := by
          have : d ∈ s.data.filter Char.isDigit := by rw [hds]; simp
          simpa using (List.mem_filter.mp this).2
        rw [hds] at hmag
        simp only [pyFloatChars, isDigit_beq_minus hd, isDigit_beq_plus hd,
          Bool.false_eq_true, if_false, hmag]
        rfl
  exact ⟨hparse, fun mn mx fld hb ha => sanitize_in_bounds hparse hb ha⟩

/-- C10 counterexample: the claim as stated says such a request *succeeds*
rather than returning a 400 validation error, for every letters-and-digits
input; but when the residual numeral is out of bounds ("400a4" ↦ 4004 > 200
for N) the sanitizer rejects it and `/predict` answers 400 even with loaded
models. -/
theorem C10_counterexample :
    sanitize_numeric_input "400a4" (some 0) (some 200) "Nitrogen (N)"
      = .error "Invalid Nitrogen (N): Nitrogen (N) must be at most 200" ∧
    predict ⟨some cmodel, some cencoder⟩
        [("N", "400a4"), ("P", "42"), ("K", "43"), ("temperature", "20.8"),
         ("humidity", "82"), ("ph", "6.5"), ("rainfall", "202.9")]
      = .jsonError "Invalid Nitrogen (N): Nitrogen (N) must be at most 200" 400
    := by decide

/-- C10 witness: "9a0" is accepted as 90 and "1e5" as 15, and a `/predict`
request with N = "9a0" succeeds end to end with the value 90 (displayed
"90.0"). -/
theorem C10_witness :
    sanitize_numeric_input "9a0" (some 0) (some 200) "Nitrogen (N)"
      = .ok (mkRat 90 1) ∧
    sanitize_numeric_input "1e5" (some 0) (some 1000) "Rainfall"
      = .ok (mkRat 15 1) ∧
    predict ⟨some cmodel, some cencoder⟩
        [("N", "9a0"), ("P", "42"), ("K", "43"), ("temperature", "20.8"),
         ("humidity", "82"), ("ph", "6.5"), ("rainfall", "202.9")]
      = .resultPage "rice"
          [("N", "90.0"), ("P", "42.0"), ("K", "43.0"),
           ("temperature", "20.8"), ("humidity", "82.0"), ("ph", "6.50"),
           ("rainfall", "202.9")] :=
  ⟨(C10_letters_deleted "9a0" (by decide) (by decide)).2
      (some 0) (some 200) "Nitrogen (N)" (by decide) (by decide),
   (C10_letters_deleted "1e5" (by decide) (by decide)).2
      (some 0) (some 1000) "Rainfall" (by decide) (by decide),
   by decide⟩

end CropRec
